import Mathlib

/-!
Verification of the CSV ingestion harness (crate `csv_miri_bug`,
file src/src/lib.rs) against its specification.

The harness delegates tokenization of delimited text to an external
collaborator (the `csv` crate); the spec treats that collaborator as a
black box.  We therefore embed the harness itself faithfully from the
source, parameterised over an arbitrary tokenized source (a header
result plus a list of per-row results), and model the collaborator's
configuration surface (delimiter, comment marker, header mode,
trimming) explicitly, since the harness's construction entry points
differ exactly in how they configure it.
-/

namespace CsvMiriBug

/-- Diagnostic payload carried by tokenizer errors (`csv::Error` is opaque
to the harness; only its identity is propagated). -/
abbrev CsvDiagnostic := String

/-- One tokenized record: an ordered list of string fields
(`csv::StringRecord`; the positional metadata is used only inside
diagnostic messages and is omitted). -/
structure StringRecord where
  fields : List String
  deriving DecidableEq

/-- Field-trimming mode of the tokenizer (`csv::Trim`). -/
inductive Trim where
  | none
  | headers
  | fields
  | all
  deriving DecidableEq

/-- The configuration the harness hands to the tokenizer
(`csv::ReaderBuilder` calls in src/src/lib.rs lines 140-145 and 170-174).
`delimiter` and `comment` are byte values. -/
structure ReaderBuilderConfig where
  has_headers : Bool
  delimiter : Nat
  comment : Option Nat
  trim : Trim
  deriving DecidableEq

/-- Configuration built by `CsvReader::new_from_path`
(src/src/lib.rs lines 140-145): header mode on, delimiter the `char`
cast to `u8` (low byte of the code point), comment marker the byte of
the hash sign (35), trimming of all fields. -/
def pathConfig (delimiter : Nat) : ReaderBuilderConfig :=
  { has_headers := true
    delimiter := delimiter % 256
    comment := some 35
    trim := Trim.all }

/-- Configuration built by `CsvReader::new_from_reader`
(src/src/lib.rs lines 170-174): header mode on, delimiter the `char`
cast to `u8`, no comment marker, trimming of all fields. -/
def readerConfig (delimiter : Nat) : ReaderBuilderConfig :=
  { has_headers := true
    delimiter := delimiter % 256
    comment := none
    trim := Trim.all }

/-- The tokenizer's view of one source once configured: the header row
result (`Reader::headers`) and the lazy sequence of data-row results
(`Reader::records`), embedded as a list. -/
structure TokenizedSource where
  header : Except CsvDiagnostic StringRecord
  rows : List (Except CsvDiagnostic StringRecord)

/-- `CsvReaderCreationError` (src/src/lib.rs lines 124-130). -/
inductive CsvReaderCreationError (E : Type) where
  | CsvError (err : CsvDiagnostic)
  | HeaderIndexerBuilderError (err : E)
  deriving DecidableEq

/-- `CsvRowReaderError` (src/src/lib.rs lines 211-217). -/
inductive CsvRowReaderError (E : Type) where
  | CsvRecordError (err : CsvDiagnostic)
  | RowParserError (err : E)
  deriving DecidableEq

/-- Decidable equality of `Except` results, needed to evaluate the
harness's outputs on concrete inputs. -/
instance exceptDecEq {ε α : Type} [DecidableEq ε] [DecidableEq α] :
    DecidableEq (Except ε α) := fun x y =>
  match x, y with
  | Except.ok a, Except.ok b =>
      if h : a = b then isTrue (by rw [h])
      else isFalse (by intro hh; cases hh; exact h rfl)
  | Except.error a, Except.error b =>
      if h : a = b then isTrue (by rw [h])
      else isFalse (by intro hh; cases hh; exact h rfl)
  | Except.ok _, Except.error _ => isFalse (by intro hh; cases hh)
  | Except.error _, Except.ok _ => isFalse (by intro hh; cases hh)

/-- `CsvReader` (src/src/lib.rs lines 118-122): the tokenizer positioned
after the header (its remaining rows) together with the header indexer
built at construction time. -/
structure CsvReader (H : Type) where
  rows : List (Except CsvDiagnostic StringRecord)
  header_indexer : H
  deriving DecidableEq

/-- `CsvReader::new_from_reader` (src/src/lib.rs lines 165-187).
`tokenize` stands for `ReaderBuilder::from_reader` applied to the given
reader: it is infallible and yields the tokenized source for the
configuration the harness builds.  The header is then read; a tokenizer
failure becomes `CsvError`, a builder failure becomes
`HeaderIndexerBuilderError`. -/
def CsvReader.new_from_reader {H E : Type}
    (header_indexer_builder : StringRecord → Except E H)
    (tokenize : ReaderBuilderConfig → TokenizedSource)
    (delimiter : Nat) :
    Except (CsvReaderCreationError E) (CsvReader H) :=
  let source := tokenize (readerConfig delimiter)
  match source.header with
  | Except.error err => Except.error (CsvReaderCreationError.CsvError err)
  | Except.ok headers =>
    match header_indexer_builder headers with
    | Except.error err =>
        Except.error (CsvReaderCreationError.HeaderIndexerBuilderError err)
    | Except.ok header_indexer =>
        Except.ok { rows := source.rows, header_indexer := header_indexer }

/-- `CsvReader::new_from_path` (src/src/lib.rs lines 135-159).
`openSource` stands for `ReaderBuilder::from_path` applied to the given
path: unlike `from_reader` it can fail (file open error), and that
failure is mapped to `CsvError` exactly like a header-read failure. -/
def CsvReader.new_from_path {H E : Type}
    (header_indexer_builder : StringRecord → Except E H)
    (openSource : ReaderBuilderConfig → Except CsvDiagnostic TokenizedSource)
    (delimiter : Nat) :
    Except (CsvReaderCreationError E) (CsvReader H) :=
  match openSource (pathConfig delimiter) with
  | Except.error err => Except.error (CsvReaderCreationError.CsvError err)
  | Except.ok source =>
    match source.header with
    | Except.error err => Except.error (CsvReaderCreationError.CsvError err)
    | Except.ok headers =>
      match header_indexer_builder headers with
      | Except.error err =>
          Except.error (CsvReaderCreationError.HeaderIndexerBuilderError err)
      | Except.ok header_indexer =>
          Except.ok { rows := source.rows, header_indexer := header_indexer }

/-- `CsvRowReader` (src/src/lib.rs lines 204-209): the borrowed records
iterator, the borrowed header indexer and the row parser.  The parser's
`parse_row` operation (trait `CsvRowParser`, src/src/lib.rs lines
351-365) takes `&mut self`, so it is embedded as explicit state passing:
a value of the parser state type `P` is threaded through every call. -/
structure CsvRowReader (H P : Type) where
  row_reader : List (Except CsvDiagnostic StringRecord)
  header_indexer : H
  rowParser : P
  deriving DecidableEq

/-- The parser-attachment method of `CsvReader` (src/src/lib.rs lines
190-200; its source name carries an underscore, spelled `withParser`
here): binds the reader's records iterator and header indexer together
with a row parser. -/
def CsvReader.withParser {H P : Type} (self : CsvReader H) (rowParser : P) :
    CsvRowReader H P :=
  { row_reader := self.rows
    header_indexer := self.header_indexer
    rowParser := rowParser }

/-- `<CsvRowReader as Iterator>::next` (src/src/lib.rs lines 223-237):
pulls the next tokenized row; `None` on exhaustion, a `CsvRecordError`
on a tokenizer-level row error, otherwise exactly one `parse_row` call
with the header indexer and the row, its error wrapped in
`RowParserError`.  `parse_row` is the embedded trait method: given the
parser state, the header indexer and the row it returns the parse result
and the successor parser state. -/
def CsvRowReader.next {H P R E : Type}
    (parse_row : P → H → StringRecord → Except E R × P)
    (self : CsvRowReader H P) :
    Option (Except (CsvRowReaderError E) R) × CsvRowReader H P :=
  match self.row_reader with
  | [] => (none, self)
  | Except.error err :: rest =>
      (some (Except.error (CsvRowReaderError.CsvRecordError err)),
       { self with row_reader := rest })
  | Except.ok row :: rest =>
      let parsed := parse_row self.rowParser self.header_indexer row
      (some (Except.mapError CsvRowReaderError.RowParserError parsed.1),
       { self with row_reader := rest, rowParser := parsed.2 })

/-- `n` successive pulls of the iterator: the list of the `n` results of
`next` in order, and the iterator state afterwards. -/
def CsvRowReader.pulls {H P R E : Type}
    (parse_row : P → H → StringRecord → Except E R × P)
    (n : Nat) (self : CsvRowReader H P) :
    List (Option (Except (CsvRowReaderError E) R)) × CsvRowReader H P :=
  match n with
  | 0 => ([], self)
  | Nat.succ m =>
      let step := CsvRowReader.next parse_row self
      let rest := CsvRowReader.pulls parse_row m step.2
      (step.1 :: rest.1, rest.2)

/-- Pulling the iterator to exhaustion: the yielded items (the payloads
of the `some` results) of as many pulls as there are tokenized rows
left. -/
def CsvRowReader.collect {H P R E : Type}
    (parse_row : P → H → StringRecord → Except E R × P)
    (self : CsvRowReader H P) :
    List (Except (CsvRowReaderError E) R) :=
  (CsvRowReader.pulls parse_row self.row_reader.length self).1.filterMap id

/-- Reference semantics used to state claims: the sequence of values the
decoder returns when invoked once per data row, in order, with its state
threaded through. -/
def decoderOutputs {H P R E : Type}
    (parse_row : P → H → StringRecord → Except E R × P)
    (h : H) : P → List StringRecord → List (Except E R)
  | _, [] => []
  | p, row :: rest =>
      (parse_row p h row).1 ::
        decoderOutputs parse_row h (parse_row p h row).2 rest

/-- The per-row results of a full run over a list of tokenized rows:
tokenizer errors become `CsvRecordError`, each well-tokenized row is
decoded exactly once (state threaded), decode errors become
`RowParserError`. -/
def runRows {H P R E : Type}
    (parse_row : P → H → StringRecord → Except E R × P)
    (h : H) : P → List (Except CsvDiagnostic StringRecord) →
    List (Except (CsvRowReaderError E) R)
  | _, [] => []
  | p, Except.error err :: rest =>
      Except.error (CsvRowReaderError.CsvRecordError err) ::
        runRows parse_row h p rest
  | p, Except.ok row :: rest =>
      Except.mapError CsvRowReaderError.RowParserError (parse_row p h row).1 ::
        runRows parse_row h (parse_row p h row).2 rest

/-! ### A concrete tokenizer model

The wire-level tokenizer is the external `csv` crate, declared out of
scope by the spec and not part of this repository; the model below is
used only to settle the end-to-end scenario and the comment-skipping
divergence on concrete quote-free inputs. -/

/-- Splits a character list on a delimiter character; the result always
has one more group than there are delimiter occurrences. -/
def splitList (delim : Char) : List Char → List (List Char)
  | [] => [[]]
  | c :: rest =>
    let r := splitList delim rest
    if c = delim then [] :: r
    else
      match r with
      | [] => [[c]]
      | grp :: more => (c :: grp) :: more

/-- Removes leading and trailing whitespace characters. -/
def trimChars (cs : List Char) : List Char :=
  ((cs.dropWhile Char.isWhitespace).reverse.dropWhile Char.isWhitespace).reverse

/-- One line split into (possibly trimmed) fields according to the
tokenizer configuration. -/
def recordOfLine (cfg : ReaderBuilderConfig) (line : List Char) : StringRecord :=
  let fields := splitList (Char.ofNat cfg.delimiter) line
  let fields := if cfg.trim = Trim.all then fields.map trimChars else fields
  { fields := fields.map (fun cs => String.mk cs) }

/-- Modelled from the spec: the external tabular-text tokenizer (the
`csv` crate, not part of this repository).  For inputs without quoting
or escaping it splits the input into lines, skips lines starting with
the comment marker when one is configured, splits each line on the
delimiter byte, trims whitespace from every field (headers included)
when trimming is on, treats the first remaining line as the header row,
and reports a data row whose field count differs from the header's as a
malformed-row diagnostic. -/
def tokenizeCsv (cfg : ReaderBuilderConfig) (input : String) : TokenizedSource :=
  let keep : List Char → Bool := fun line =>
    match cfg.comment with
    | none => true
    | some c =>
      match line with
      | [] => true
      | ch :: _ => ch ≠ Char.ofNat c
  let lines := (splitList (Char.ofNat 10) input.toList).filter keep
  match lines with
  | [] => { header := Except.error ("empty input"), rows := [] }
  | headerLine :: dataLines =>
    let headerRecord := recordOfLine cfg headerLine
    let expected := headerRecord.fields.length
    { header := Except.ok headerRecord
      rows := dataLines.map (fun line =>
        let record := recordOfLine cfg line
        if record.fields.length = expected then Except.ok record
        else Except.error ("unequal lengths")) }

/-! ### The example header indexer and row parser

Embedded from the test module (src/src/lib.rs lines 367-477), which is
the code the end-to-end scenario of the spec was written from. -/

/-- `tests::FromRow` (src/src/lib.rs lines 377-381).  The `x` field is
`f64` in the source; every value arising in the scenario is an exactly
representable short decimal, on which `f64` arithmetic-free parse and
comparison agree with exact rational semantics, so it is embedded as a
rational. -/
structure FromRow where
  x : Rat
  y : Int
  deriving DecidableEq

/-- `tests::HeaderIndexer` (src/src/lib.rs lines 383-386). -/
structure HeaderIndexer where
  x_idx : Nat
  y_idx : Nat
  deriving DecidableEq

/-- `tests::HeaderIndexerError` (src/src/lib.rs lines 388-394). -/
inductive HeaderIndexerError where
  | NoX
  | DuplicatedX
  | NoY
  | DuplicatedY
  deriving DecidableEq

/-- `Iterator::rposition` over a list of strings: the index (from the
front) of the last element satisfying the predicate. -/
def rposition (p : String → Bool) (cols : List String) : Option Nat :=
  (cols.reverse.findIdx? p).map (fun i => cols.length - 1 - i)

/-- `tests::HeaderIndexer::new` (src/src/lib.rs lines 398-416): requires
exactly one `X` column and exactly one `Y` column, rejecting duplicates
before absence, `X` before `Y`. -/
def HeaderIndexer.new (columns : StringRecord) :
    Except HeaderIndexerError HeaderIndexer :=
  let cols := columns.fields
  let x_idx := cols.findIdx? (fun col => col == "X")
  if x_idx ≠ rposition (fun col => col == "X") cols then
    Except.error HeaderIndexerError.DuplicatedX
  else
    match x_idx with
    | none => Except.error HeaderIndexerError.NoX
    | some x_idx =>
      let y_idx := cols.findIdx? (fun col => col == "Y")
      if y_idx ≠ rposition (fun col => col == "Y") cols then
        Except.error HeaderIndexerError.DuplicatedY
      else
        match y_idx with
        | none => Except.error HeaderIndexerError.NoY
        | some y_idx => Except.ok { x_idx := x_idx, y_idx := y_idx }

/-- Modelled from the spec: the error payload of the test row parser is
`eyre::Report` (an opaque dynamic error from outside this repository);
only which failure occurred is observable, so it is embedded as a tag. -/
inductive ParserError where
  | NoFieldX
  | NoFieldY
  | ParseFloatError
  | ParseIntError
  deriving DecidableEq

/-- Digit-string validation and value, used by the embedded numeric
parsers: `none` unless the characters are one or more decimal digits. -/
def digitsToNat? (cs : List Char) : Option Nat :=
  if cs.isEmpty then none
  else
    cs.foldl
      (fun acc c =>
        match acc with
        | none => none
        | some n => if c.isDigit then some (n * 10 + (c.toNat - 48)) else none)
      (some 0)

/-- The numeric value of a digit list (`0` when empty). -/
def natOfDigits (cs : List Char) : Nat :=
  cs.foldl (fun n c => n * 10 + (c.toNat - 48)) 0

/-- Whether every character is a decimal digit. -/
def allDigits (cs : List Char) : Bool := cs.all Char.isDigit

/-- Modelled from the spec: Rust's `str::parse::<i64>` (standard
library, outside this repository): an optional sign followed by one or
more decimal digits, rejecting values outside the `i64` range. -/
def parseI64 (s : String) : Option Int :=
  let signBody : Bool × List Char :=
    match s.toList with
    | '-' :: rest => (true, rest)
    | '+' :: rest => (false, rest)
    | cs => (false, cs)
  match digitsToNat? signBody.2 with
  | none => none
  | some n =>
    let v : Int := if signBody.1 then -(n : Int) else (n : Int)
    if -(2 ^ 63) ≤ v ∧ v ≤ 2 ^ 63 - 1 then some v else none

/-- Modelled from the spec: the finite-decimal fragment of Rust's
`str::parse::<f64>` (standard library, outside this repository): an
optional sign, then digits with at most one decimal point and at least
one digit overall.  Exponents and the non-finite spellings are outside
the fragment exercised by the scenario; all its values are short exact
decimals, on which `f64` parsing agrees with exact rational
semantics. -/
def parseF64 (s : String) : Option Rat :=
  let signBody : Bool × List Char :=
    match s.toList with
    | '-' :: rest => (true, rest)
    | '+' :: rest => (false, rest)
    | cs => (false, cs)
  let sign : Int := if signBody.1 then -1 else 1
  match splitList '.' signBody.2 with
  | [intPart] =>
    if intPart ≠ [] ∧ allDigits intPart then
      some (mkRat (sign * (natOfDigits intPart : Int)) 1)
    else none
  | [intPart, fracPart] =>
    if allDigits intPart ∧ allDigits fracPart ∧ ¬(intPart = [] ∧ fracPart = []) then
      some (mkRat
        (sign * ((natOfDigits intPart : Int) * (10 : Int) ^ fracPart.length
          + (natOfDigits fracPart : Int)))
        (10 ^ fracPart.length))
    else none
  | _ => none

/-- `tests::Parser::parse_row` (src/src/lib.rs lines 427-449): fetches
the `X` field, then the `Y` field, then parses `X` as a float and `Y` as
an integer, in that order, failing at the first step that does not
succeed. -/
def Parser.parse_row (header_indexer : HeaderIndexer) (row : StringRecord) :
    Except ParserError FromRow :=
  match row.fields.get? header_indexer.x_idx with
  | none => Except.error ParserError.NoFieldX
  | some x =>
    match row.fields.get? header_indexer.y_idx with
    | none => Except.error ParserError.NoFieldY
    | some y =>
      match parseF64 x with
      | none => Except.error ParserError.ParseFloatError
      | some xv =>
        match parseI64 y with
        | none => Except.error ParserError.ParseIntError
        | some yv => Except.ok { x := xv, y := yv }

/-- `tests::Parser` is a unit struct: its `CsvRowParser` implementation
has trivial state. -/
def testParseRow : Unit → HeaderIndexer → StringRecord →
    Except ParserError FromRow × Unit :=
  fun _ header_indexer row => (Parser.parse_row header_indexer row, ())

/-- `tests::CSV_FILE` (src/src/lib.rs lines 452-458), with the raw
string's line breaks and indentation reproduced verbatim. -/
def CSV_FILE : String :=
  "X,Z, Y\n           10.2,23.3,11\n           1,0,12.9\n           ,,1\n           0,8,9\n           1,,2"

/-- The reader the test `tests::csv_reader` builds (src/src/lib.rs lines
463-469): `new_from_reader` over the in-memory CSV with the comma
delimiter and `HeaderIndexer::new`. -/
def testReader :
    Except (CsvReaderCreationError HeaderIndexerError) (CsvReader HeaderIndexer) :=
  CsvReader.new_from_reader HeaderIndexer.new
    (fun cfg => tokenizeCsv cfg CSV_FILE) (Char.toNat ',')

/-- The first seven pulls of the test's row-decoding stream (the test
performs six; a seventh checks that exhaustion persists). -/
def testRun : List (Option (Except (CsvRowReaderError ParserError) FromRow)) :=
  match testReader with
  | Except.error _ => []
  | Except.ok rdr =>
    (CsvRowReader.pulls testParseRow 7 (CsvReader.withParser rdr ())).1

/-- The end of the exclusive borrow created by the parser-attachment
method (src/src/lib.rs lines 190-200; it takes `&mut self`): when
the `CsvRowReader` is dropped, the `CsvReader` it borrowed from becomes
usable again; its records iterator (`csv::Reader::records` borrows the
reader's internal cursor) is left wherever the stream stopped, and its
header indexer is unchanged. -/
def CsvRowReader.release {H P : Type} (self : CsvRowReader H P)
    (source : CsvReader H) : CsvReader H :=
  { source with rows := self.row_reader }

/-- An instrumented row parser whose state records every record it is
invoked with, in order: used to observe which rows reach the decoder. -/
def loggingParse {H : Type} :
    List StringRecord → H → StringRecord → Except Unit StringRecord × List StringRecord :=
  fun log _ row => (Except.ok row, log ++ [row])

/-! ### Concrete instances used by witnesses and counterexamples -/

/-- A demonstration row parser: fails on a record with no fields,
otherwise returns the field count. -/
def demoParse : Unit → Unit → StringRecord → Except Unit Nat × Unit :=
  fun _ _ row =>
    (if row.fields = [] then Except.error () else Except.ok row.fields.length, ())

/-- A stateless row parser returning the record unchanged. -/
def echoParse : Unit → Unit → StringRecord → Except Unit StringRecord × Unit :=
  fun _ _ row => (Except.ok row, ())

/-- A demonstration header-indexer builder: always succeeds with the
column count. -/
def demoBuilder : StringRecord → Except Unit Nat :=
  fun record => Except.ok record.fields.length

/-- A demonstration header-indexer builder that always fails. -/
def demoFailBuilder : StringRecord → Except Unit Nat :=
  fun _ => Except.error ()

/-- A demonstration tokenized source: one header, one good row, one
malformed row. -/
def demoTokenize : ReaderBuilderConfig → TokenizedSource :=
  fun _ =>
    { header := Except.ok ⟨["A"]⟩
      rows := [Except.ok ⟨["1"]⟩, Except.error ("bad")] }

/-- A demonstration tokenized source whose header read fails. -/
def demoTokenizeFail : ReaderBuilderConfig → TokenizedSource :=
  fun _ => { header := Except.error ("boom"), rows := [] }

/-- A demonstration path opener that succeeds. -/
def demoOpen : ReaderBuilderConfig → Except CsvDiagnostic TokenizedSource :=
  fun cfg => Except.ok (demoTokenize cfg)

/-- A demonstration path opener that fails to open the source. -/
def demoOpenFail : ReaderBuilderConfig → Except CsvDiagnostic TokenizedSource :=
  fun _ => Except.error ("no such file")

/-- A demonstration path opener whose header read fails. -/
def demoOpenHeaderFail : ReaderBuilderConfig → Except CsvDiagnostic TokenizedSource :=
  fun cfg => Except.ok (demoTokenizeFail cfg)

/-- A demonstration already-constructed reader holding two data rows. -/
def demoSource : CsvReader Unit :=
  { rows := [Except.ok ⟨["1"]⟩, Except.ok ⟨["2"]⟩], header_indexer := () }

/-! ### Basic stepping lemmas -/

/-- Wrapping a per-row error does not affect success results. -/
theorem mapError_ok {ε ε' α : Type} (f : ε → ε') (a : α) :
    Except.mapError f (Except.ok a : Except ε α) = Except.ok a := rfl

/-- Wrapping a per-row error acts on error results. -/
theorem mapError_error {ε ε' α : Type} (f : ε → ε') (e : ε) :
    Except.mapError f (Except.error e : Except ε α) = Except.error (f e) := rfl

/-- Stepping an exhausted iterator: no result, state unchanged. -/
theorem next_nil {H P R E : Type}
    (parse_row : P → H → StringRecord → Except E R × P) (hi : H) (p : P) :
    CsvRowReader.next parse_row ⟨[], hi, p⟩ = (none, ⟨[], hi, p⟩) := rfl

/-- Stepping past a tokenizer-level row error. -/
theorem next_error {H P R E : Type}
    (parse_row : P → H → StringRecord → Except E R × P)
    (err : CsvDiagnostic) (rest : List (Except CsvDiagnostic StringRecord))
    (hi : H) (p : P) :
    CsvRowReader.next parse_row ⟨Except.error err :: rest, hi, p⟩
      = (some (Except.error (CsvRowReaderError.CsvRecordError err)),
         ⟨rest, hi, p⟩) := rfl

/-- Stepping over a well-tokenized row: one `parse_row` call. -/
theorem next_ok {H P R E : Type}
    (parse_row : P → H → StringRecord → Except E R × P)
    (row : StringRecord) (rest : List (Except CsvDiagnostic StringRecord))
    (hi : H) (p : P) :
    CsvRowReader.next parse_row ⟨Except.ok row :: rest, hi, p⟩
      = (some (Except.mapError CsvRowReaderError.RowParserError
          (parse_row p hi row).1),
         ⟨rest, hi, (parse_row p hi row).2⟩) := rfl

/-- Pulling an exhausted iterator any number of times yields only
"no more results" and leaves the state unchanged. -/
theorem pulls_nil {H P R E : Type}
    (parse_row : P → H → StringRecord → Except E R × P)
    (hi : H) (p : P) (n : Nat) :
    CsvRowReader.pulls parse_row n ⟨[], hi, p⟩
      = (List.replicate n none, ⟨[], hi, p⟩) := by
  induction n with
  | zero => rfl
  | succ m ih =>
    show ((CsvRowReader.next parse_row ⟨[], hi, p⟩).1 :: _, _) = _
    rw [next_nil]
    rw [List.replicate_succ]
    exact congrArg (fun z => (none :: z.1, z.2)) ih

/-- The results of pulling an iterator as many times as it has tokenized
rows are exactly the per-row results of `runRows`, each wrapped in
`some`, in order. -/
theorem pulls_fst_trace {H P R E : Type}
    (parse_row : P → H → StringRecord → Except E R × P) (hi : H) :
    ∀ (rows : List (Except CsvDiagnostic StringRecord)) (p : P),
      (CsvRowReader.pulls parse_row rows.length ⟨rows, hi, p⟩).1
        = (runRows parse_row hi p rows).map some
  | [], _ => rfl
  | Except.error err :: rest, p => by
    show (CsvRowReader.next parse_row ⟨Except.error err :: rest, hi, p⟩).1 :: _ = _
    rw [next_error]
    show _ :: (CsvRowReader.pulls parse_row rest.length ⟨rest, hi, p⟩).1 = _
    rw [pulls_fst_trace parse_row hi rest p]
    rfl
  | Except.ok row :: rest, p => by
    show (CsvRowReader.next parse_row ⟨Except.ok row :: rest, hi, p⟩).1 :: _ = _
    rw [next_ok]
    show _ :: (CsvRowReader.pulls parse_row rest.length
      ⟨rest, hi, (parse_row p hi row).2⟩).1 = _
    rw [pulls_fst_trace parse_row hi rest (parse_row p hi row).2]
    rfl

/-- After `n` pulls the iterator's remaining tokenized rows are the
original ones with the first `n` dropped. -/
theorem pulls_snd_row_reader {H P R E : Type}
    (parse_row : P → H → StringRecord → Except E R × P) :
    ∀ (n : Nat) (s : CsvRowReader H P),
      (CsvRowReader.pulls parse_row n s).2.row_reader = s.row_reader.drop n
  | 0, _ => rfl
  | Nat.succ m, ⟨[], hi, p⟩ => by
    show (CsvRowReader.pulls parse_row m
      (CsvRowReader.next parse_row ⟨[], hi, p⟩).2).2.row_reader = _
    rw [next_nil, pulls_snd_row_reader parse_row m ⟨[], hi, p⟩]
    cases m <;> rfl
  | Nat.succ m, ⟨Except.error err :: rest, hi, p⟩ => by
    show (CsvRowReader.pulls parse_row m
      (CsvRowReader.next parse_row ⟨Except.error err :: rest, hi, p⟩).2).2.row_reader = _
    rw [next_error, pulls_snd_row_reader parse_row m ⟨rest, hi, p⟩]
    rfl
  | Nat.succ m, ⟨Except.ok row :: rest, hi, p⟩ => by
    show (CsvRowReader.pulls parse_row m
      (CsvRowReader.next parse_row ⟨Except.ok row :: rest, hi, p⟩).2).2.row_reader = _
    rw [next_ok,
      pulls_snd_row_reader parse_row m ⟨rest, hi, (parse_row p hi row).2⟩]
    rfl

/-- Pulling to exhaustion yields exactly the per-row results of
`runRows`, in order. -/
theorem collect_eq_runRows {H P R E : Type}
    (parse_row : P → H → StringRecord → Except E R × P)
    (rows : List (Except CsvDiagnostic StringRecord)) (hi : H) (p : P) :
    CsvRowReader.collect parse_row ⟨rows, hi, p⟩ = runRows parse_row hi p rows := by
  show (CsvRowReader.pulls parse_row rows.length ⟨rows, hi, p⟩).1.filterMap id = _
  rw [pulls_fst_trace]
  simp [List.filterMap_map]

/-- `runRows` over error-free tokenized rows is the decoder's own output
sequence, with each error wrapped in `RowParserError`. -/
theorem runRows_map_ok {H P R E : Type}
    (parse_row : P → H → StringRecord → Except E R × P) (hi : H) :
    ∀ (raw : List StringRecord) (p : P),
      runRows parse_row hi p (raw.map Except.ok)
        = (decoderOutputs parse_row hi p raw).map
            (Except.mapError CsvRowReaderError.RowParserError)
  | [], _ => rfl
  | row :: rest, p => by
    show Except.mapError CsvRowReaderError.RowParserError (parse_row p hi row).1 ::
      runRows parse_row hi (parse_row p hi row).2 (rest.map Except.ok) = _
    rw [runRows_map_ok parse_row hi rest (parse_row p hi row).2]
    rfl

/-- The decoder is invoked exactly once per data row: its output
sequence has one element per row. -/
theorem decoderOutputs_length {H P R E : Type}
    (parse_row : P → H → StringRecord → Except E R × P) (hi : H) :
    ∀ (raw : List StringRecord) (p : P),
      (decoderOutputs parse_row hi p raw).length = raw.length
  | [], _ => rfl
  | row :: rest, p => by
    show (decoderOutputs parse_row hi (parse_row p hi row).2 rest).length + 1 = _
    rw [decoderOutputs_length parse_row hi rest (parse_row p hi row).2]
    rfl

/-- During the first `n` pulls the decoder is invoked with exactly the
well-tokenized records among the first `n` tokenized rows, in order. -/
theorem pulls_logging {H : Type} (hi : H) :
    ∀ (n : Nat) (rows : List (Except CsvDiagnostic StringRecord))
      (log : List StringRecord),
      (CsvRowReader.pulls loggingParse n ⟨rows, hi, log⟩).2.rowParser
        = log ++ (rows.take n).filterMap Except.toOption
  | 0, rows, log => by simp [CsvRowReader.pulls]
  | Nat.succ m, [], log => by
    show (CsvRowReader.pulls loggingParse m
      (CsvRowReader.next loggingParse ⟨[], hi, log⟩).2).2.rowParser = _
    rw [next_nil, pulls_logging hi m [] log]
    simp
  | Nat.succ m, Except.error err :: rest, log => by
    show (CsvRowReader.pulls loggingParse m
      (CsvRowReader.next loggingParse ⟨Except.error err :: rest, hi, log⟩).2).2.rowParser = _
    rw [next_error, pulls_logging hi m rest log]
    simp [Except.toOption]
  | Nat.succ m, Except.ok row :: rest, log => by
    show (CsvRowReader.pulls loggingParse m
      (CsvRowReader.next loggingParse ⟨Except.ok row :: rest, hi, log⟩).2).2.rowParser = _
    have hstep : (CsvRowReader.next loggingParse
        ⟨Except.ok row :: rest, hi, log⟩).2 = ⟨rest, hi, log ++ [row]⟩ := rfl
    rw [hstep, pulls_logging hi m rest (log ++ [row])]
    simp [Except.toOption]

/-! ### The claims -/

/-- C1: for every input whose data rows all tokenize without error, if
the decoder never fails then pulling the row-decoding stream to
exhaustion yields exactly one successfully decoded value per data row,
and the i-th pulled result is the decode of the i-th data row, in strict
source-row order. -/
theorem pull_to_exhaustion_decodes_rows_in_order {H P R E : Type}
    (parse_row : P → H → StringRecord → Except E R × P)
    (hi : H) (p : P) (raw : List StringRecord)
    (hok : ∀ x ∈ decoderOutputs parse_row hi p raw, x.isOk = true) :
    CsvRowReader.collect parse_row ⟨raw.map Except.ok, hi, p⟩
        = (decoderOutputs parse_row hi p raw).map
            (Except.mapError CsvRowReaderError.RowParserError)
      ∧ (CsvRowReader.collect parse_row ⟨raw.map Except.ok, hi, p⟩).length
          = raw.length
      ∧ ∀ x ∈ CsvRowReader.collect parse_row ⟨raw.map Except.ok, hi, p⟩,
          x.isOk = true := by
  have htrace : CsvRowReader.collect parse_row ⟨raw.map Except.ok, hi, p⟩
      = (decoderOutputs parse_row hi p raw).map
          (Except.mapError CsvRowReaderError.RowParserError) := by
    rw [collect_eq_runRows, runRows_map_ok]
  refine ⟨htrace, ?_, ?_⟩
  · rw [htrace, List.length_map, decoderOutputs_length]
  · intro x hx
    rw [htrace] at hx
    obtain ⟨y, hy, hxy⟩ := List.mem_map.mp hx
    have := hok y hy
    cases y with
    | ok v => rw [← hxy]; rfl
    | error e => exact Bool.noConfusion (show (false : Bool) = true from this)

/-- Witness for C1 at a concrete input: two well-tokenized rows, a
decoder that succeeds on both. -/
theorem pull_to_exhaustion_decodes_rows_in_order_witness :
    CsvRowReader.collect demoParse
        ⟨[⟨["a"]⟩, ⟨["b", "c"]⟩].map Except.ok, (), ()⟩
      = [Except.ok 1, Except.ok 2] := by
  have h := pull_to_exhaustion_decodes_rows_in_order demoParse () ()
    [⟨["a"]⟩, ⟨["b", "c"]⟩] (by decide)
  rw [h.1]
  rfl

/-- C2: a pull whose tokenized row is malformed yields
`CsvRecordError` carrying the diagnostic and leaves the stream on the
following rows; pulling three times over [good, malformed, good] yields
[Ok, Err, Ok], not early termination. -/
theorem malformed_row_yields_error_and_stream_continues {H P R E : Type}
    (parse_row : P → H → StringRecord → Except E R × P) :
    (∀ (s : CsvRowReader H P) (err : CsvDiagnostic)
        (rest : List (Except CsvDiagnostic StringRecord)),
      s.row_reader = Except.error err :: rest →
      CsvRowReader.next parse_row s
        = (some (Except.error (CsvRowReaderError.CsvRecordError err)),
           { s with row_reader := rest }))
    ∧ ∀ (hi : H) (p : P) (g1 g2 : StringRecord) (err : CsvDiagnostic)
        (v1 v2 : R),
        (parse_row p hi g1).1 = Except.ok v1 →
        (parse_row (parse_row p hi g1).2 hi g2).1 = Except.ok v2 →
        (CsvRowReader.pulls parse_row 3
          ⟨[Except.ok g1, Except.error err, Except.ok g2], hi, p⟩).1
          = [some (Except.ok v1),
             some (Except.error (CsvRowReaderError.CsvRecordError err)),
             some (Except.ok v2)] := by
  constructor
  · intro s err rest hs
    obtain ⟨rows, hi, p⟩ := s
    cases hs
    rfl
  · intro hi p g1 g2 err v1 v2 h1 h2
    show (CsvRowReader.next parse_row
      ⟨[Except.ok g1, Except.error err, Except.ok g2], hi, p⟩).1 :: _ = _
    rw [next_ok, h1]
    show _ :: ((CsvRowReader.next parse_row
      ⟨[Except.error err, Except.ok g2], hi, (parse_row p hi g1).2⟩).1 :: _) = _
    rw [next_error]
    show _ :: _ :: ((CsvRowReader.next parse_row
      ⟨[Except.ok g2], hi, (parse_row p hi g1).2⟩).1 :: _) = _
    rw [next_ok, h2]
    rfl

/-- Witness for C2 at a concrete input: rows [good, malformed, good]
with the demonstration parser yield [Ok 1, Err, Ok 2]. -/
theorem malformed_row_yields_error_and_stream_continues_witness :
    (CsvRowReader.pulls demoParse 3
      ⟨[Except.ok ⟨["a"]⟩, Except.error ("bad row"), Except.ok ⟨["b", "c"]⟩], (), ()⟩).1
      = [some (Except.ok 1),
         some (Except.error (CsvRowReaderError.CsvRecordError ("bad row"))),
         some (Except.ok 2)] :=
  (malformed_row_yields_error_and_stream_continues demoParse).2
    () () ⟨["a"]⟩ ⟨["b", "c"]⟩ ("bad row") 1 2 rfl rfl

/-- C3: a pull whose raw row tokenizes successfully invokes the decoder
exactly once with the header mapping and that row (the successor parser
state is the one produced by that single call); a decoder error `e` is
produced as `RowParserError e` unchanged, a decoder success as the
decoded value itself. -/
theorem tokenized_row_decoded_exactly_once {H P R E : Type}
    (parse_row : P → H → StringRecord → Except E R × P)
    (s : CsvRowReader H P) (row : StringRecord)
    (rest : List (Except CsvDiagnostic StringRecord))
    (hs : s.row_reader = Except.ok row :: rest) :
    CsvRowReader.next parse_row s
        = (some (Except.mapError CsvRowReaderError.RowParserError
            (parse_row s.rowParser s.header_indexer row).1),
           { s with row_reader := rest,
                    rowParser := (parse_row s.rowParser s.header_indexer row).2 })
      ∧ (∀ e, (parse_row s.rowParser s.header_indexer row).1 = Except.error e →
          (CsvRowReader.next parse_row s).1
            = some (Except.error (CsvRowReaderError.RowParserError e)))
      ∧ ∀ v, (parse_row s.rowParser s.header_indexer row).1 = Except.ok v →
          (CsvRowReader.next parse_row s).1 = some (Except.ok v) := by
  obtain ⟨rows, hi, p⟩ := s
  cases hs
  refine ⟨rfl, ?_, ?_⟩
  · intro e he
    show (some (Except.mapError CsvRowReaderError.RowParserError
      (parse_row p hi row).1), _).1 = _
    rw [he]
    rfl
  · intro v hv
    show (some (Except.mapError CsvRowReaderError.RowParserError
      (parse_row p hi row).1), _).1 = _
    rw [hv]
    rfl

/-- Witness for C3 at concrete inputs: one succeeding row and one
failing row of the demonstration parser. -/
theorem tokenized_row_decoded_exactly_once_witness :
    (CsvRowReader.next demoParse ⟨[Except.ok ⟨["a"]⟩], (), ()⟩
        = (some (Except.ok 1), ⟨[], (), ()⟩))
    ∧ (CsvRowReader.next demoParse ⟨[Except.ok ⟨[]⟩], (), ()⟩).1
        = some (Except.error (CsvRowReaderError.RowParserError ())) := by
  constructor
  · have h := tokenized_row_decoded_exactly_once demoParse
      ⟨[Except.ok ⟨["a"]⟩], (), ()⟩ ⟨["a"]⟩ [] rfl
    rw [h.1]
    rfl
  · exact (tokenized_row_decoded_exactly_once demoParse
      ⟨[Except.ok ⟨[]⟩], (), ()⟩ ⟨[]⟩ [] rfl).2.1 () rfl

/-- C6: exhaustion is stable: once a pull produces "no more results",
every further pull also produces "no more results" — never a value or an
error. -/
theorem exhaustion_is_stable {H P R E : Type}
    (parse_row : P → H → StringRecord → Except E R × P)
    (s : CsvRowReader H P)
    (hend : (CsvRowReader.next parse_row s).1 = none) :
    ∀ n, (CsvRowReader.pulls parse_row n
      (CsvRowReader.next parse_row s).2).1 = List.replicate n none := by
  obtain ⟨rows, hi, p⟩ := s
  cases rows with
  | nil =>
    intro n
    rw [next_nil]
    rw [pulls_nil]
  | cons r rest =>
    exfalso
    cases r with
    | error err => rw [next_error] at hend; cases hend
    | ok row => rw [next_ok] at hend; cases hend

/-- Witness for C6 at a concrete input: an exhausted stream keeps
reporting "no more results". -/
theorem exhaustion_is_stable_witness :
    (CsvRowReader.pulls demoParse 2
      (CsvRowReader.next demoParse ⟨[], (), ()⟩).2).1
      = List.replicate 2 none :=
  exhaustion_is_stable demoParse ⟨[], (), ()⟩ rfl 2

/-- Inversion of a successful reader-based construction: the header was
read successfully, the builder accepted it producing the stored indexer,
and the instance holds exactly the tokenizer's data rows. -/
theorem new_from_reader_ok {H E : Type} (builder : StringRecord → Except E H)
    (tokenize : ReaderBuilderConfig → TokenizedSource) (d : Nat)
    (rdr : CsvReader H)
    (hok : CsvReader.new_from_reader builder tokenize d = Except.ok rdr) :
    ∃ hdr, (tokenize (readerConfig d)).header = Except.ok hdr
      ∧ builder hdr = Except.ok rdr.header_indexer
      ∧ rdr.rows = (tokenize (readerConfig d)).rows := by
  unfold CsvReader.new_from_reader at hok
  dsimp only at hok
  cases hh : (tokenize (readerConfig d)).header with
  | error e => rw [hh] at hok; exact Except.noConfusion hok
  | ok hdr =>
    rw [hh] at hok
    dsimp only at hok
    cases hb : builder hdr with
    | error e => rw [hb] at hok; exact Except.noConfusion hok
    | ok hIdx =>
      rw [hb] at hok
      cases hok
      exact ⟨hdr, rfl, hb, rfl⟩

/-- Inversion of a successful path-based construction: the source was
opened, the header was read, the builder accepted it, and the instance
holds exactly the tokenizer's data rows. -/
theorem new_from_path_ok {H E : Type} (builder : StringRecord → Except E H)
    (openSource : ReaderBuilderConfig → Except CsvDiagnostic TokenizedSource)
    (d : Nat) (rdr : CsvReader H)
    (hok : CsvReader.new_from_path builder openSource d = Except.ok rdr) :
    ∃ src hdr, openSource (pathConfig d) = Except.ok src
      ∧ src.header = Except.ok hdr
      ∧ builder hdr = Except.ok rdr.header_indexer
      ∧ rdr.rows = src.rows := by
  unfold CsvReader.new_from_path at hok
  cases ho : openSource (pathConfig d) with
  | error e => rw [ho] at hok; exact Except.noConfusion hok
  | ok src =>
    rw [ho] at hok
    dsimp only at hok
    cases hh : src.header with
    | error e => rw [hh] at hok; exact Except.noConfusion hok
    | ok hdr =>
      rw [hh] at hok
      dsimp only at hok
      cases hb : builder hdr with
      | error e => rw [hb] at hok; exact Except.noConfusion hok
      | ok hIdx =>
        rw [hb] at hok
        cases hok
        exact ⟨src, hdr, rfl, hh, hb, rfl⟩

/-- C4: every successful construction (from path or from reader)
consumed exactly the header row: the header-mapping constructor was
invoked with that header row and produced the stored mapping, the
instance's tokenized rows are exactly the data rows after the header,
and every record the decoder is ever invoked with during a run comes
from those data rows — never the header row. -/
theorem construction_consumes_header_once {H E : Type}
    (builder : StringRecord → Except E H) (d : Nat) :
    (∀ (tokenize : ReaderBuilderConfig → TokenizedSource) (rdr : CsvReader H),
      CsvReader.new_from_reader builder tokenize d = Except.ok rdr →
        ∃ hdr, (tokenize (readerConfig d)).header = Except.ok hdr
          ∧ builder hdr = Except.ok rdr.header_indexer
          ∧ rdr.rows = (tokenize (readerConfig d)).rows
          ∧ (∀ n, (CsvRowReader.pulls loggingParse n
                (CsvReader.withParser rdr ([] : List StringRecord))).2.rowParser
              = ((tokenize (readerConfig d)).rows.take n).filterMap Except.toOption)
          ∧ ∀ n rec, rec ∈ (CsvRowReader.pulls loggingParse n
                (CsvReader.withParser rdr ([] : List StringRecord))).2.rowParser →
              Except.ok rec ∈ (tokenize (readerConfig d)).rows)
    ∧ ∀ (openSource : ReaderBuilderConfig → Except CsvDiagnostic TokenizedSource)
        (rdr : CsvReader H),
      CsvReader.new_from_path builder openSource d = Except.ok rdr →
        ∃ src hdr, openSource (pathConfig d) = Except.ok src
          ∧ src.header = Except.ok hdr
          ∧ builder hdr = Except.ok rdr.header_indexer
          ∧ rdr.rows = src.rows
          ∧ (∀ n, (CsvRowReader.pulls loggingParse n
                (CsvReader.withParser rdr ([] : List StringRecord))).2.rowParser
              = (src.rows.take n).filterMap Except.toOption)
          ∧ ∀ n rec, rec ∈ (CsvRowReader.pulls loggingParse n
                (CsvReader.withParser rdr ([] : List StringRecord))).2.rowParser →
              Except.ok rec ∈ src.rows := by
  have hmem : ∀ (rows : List (Except CsvDiagnostic StringRecord)) (n : Nat)
      (rec : StringRecord),
      rec ∈ (rows.take n).filterMap Except.toOption → Except.ok rec ∈ rows := by
    intro rows n rec hrec
    obtain ⟨a, ha, hrep⟩ := List.mem_filterMap.mp hrec
    have ha' : a ∈ rows := List.take_subset n rows ha
    cases a with
    | ok v => cases hrep; exact ha'
    | error e => exact Option.noConfusion hrep
  constructor
  · intro tokenize rdr hok
    obtain ⟨hdr, hh, hb, hrows⟩ := new_from_reader_ok builder tokenize d rdr hok
    obtain ⟨rows, hIdx⟩ := rdr
    cases hrows
    refine ⟨hdr, hh, hb, rfl, ?_, ?_⟩
    · intro n
      exact (pulls_logging hIdx n _ []).trans (by rw [List.nil_append])
    · intro n rec hrec
      have hrec' : rec ∈ (CsvRowReader.pulls loggingParse n
          ⟨(tokenize (readerConfig d)).rows, hIdx, ([] : List StringRecord)⟩).2.rowParser :=
        hrec
      rw [pulls_logging hIdx n _ [], List.nil_append] at hrec'
      exact hmem _ n rec hrec'
  · intro openSource rdr hok
    obtain ⟨src, hdr, ho, hh, hb, hrows⟩ := new_from_path_ok builder openSource d rdr hok
    obtain ⟨rows, hIdx⟩ := rdr
    cases hrows
    refine ⟨src, hdr, ho, hh, hb, rfl, ?_, ?_⟩
    · intro n
      exact (pulls_logging hIdx n _ []).trans (by rw [List.nil_append])
    · intro n rec hrec
      have hrec' : rec ∈ (CsvRowReader.pulls loggingParse n
          ⟨src.rows, hIdx, ([] : List StringRecord)⟩).2.rowParser := hrec
      rw [pulls_logging hIdx n _ [], List.nil_append] at hrec'
      exact hmem _ n rec hrec'

/-- Witness for C4 at concrete inputs: a successful reader-based and a
successful path-based construction, and the record log of a full run. -/
theorem construction_consumes_header_once_witness :
    (CsvReader.new_from_reader demoBuilder demoTokenize 44
      = Except.ok { rows := [Except.ok ⟨["1"]⟩, Except.error ("bad")],
                    header_indexer := 1 })
    ∧ (CsvReader.new_from_path demoBuilder demoOpen 44
      = Except.ok { rows := [Except.ok ⟨["1"]⟩, Except.error ("bad")],
                    header_indexer := 1 })
    ∧ (CsvRowReader.pulls loggingParse 2
        (CsvReader.withParser
          ({ rows := [Except.ok ⟨["1"]⟩, Except.error ("bad")],
             header_indexer := 1 } : CsvReader Nat)
          ([] : List StringRecord))).2.rowParser = [⟨["1"]⟩] := by
  refine ⟨rfl, rfl, ?_⟩
  obtain ⟨hdr, hh, hb, hrows, hlog, hmem⟩ :=
    ((construction_consumes_header_once demoBuilder 44).1 demoTokenize
      { rows := [Except.ok ⟨["1"]⟩, Except.error ("bad")], header_indexer := 1 } rfl)
  exact (hlog 2).trans (by decide)

/-- C5: a tokenizer failure at construction (source open or header
read) yields `CsvError` carrying the diagnostic; a header-indexer
builder failure `e` yields `HeaderIndexerBuilderError e` with the payload
unchanged; in both cases no instance is produced, and the two creation
error kinds are structurally distinct, never merged. -/
theorem creation_errors_distinct_and_faithful {H E : Type}
    (builder : StringRecord → Except E H) (d : Nat) :
    (∀ (tokenize : ReaderBuilderConfig → TokenizedSource) (diag : CsvDiagnostic),
      (tokenize (readerConfig d)).header = Except.error diag →
      CsvReader.new_from_reader builder tokenize d
        = Except.error (CsvReaderCreationError.CsvError diag))
    ∧ (∀ (tokenize : ReaderBuilderConfig → TokenizedSource)
        (hdr : StringRecord) (e : E),
      (tokenize (readerConfig d)).header = Except.ok hdr →
      builder hdr = Except.error e →
      CsvReader.new_from_reader builder tokenize d
        = Except.error (CsvReaderCreationError.HeaderIndexerBuilderError e))
    ∧ (∀ (openSource : ReaderBuilderConfig → Except CsvDiagnostic TokenizedSource)
        (diag : CsvDiagnostic),
      openSource (pathConfig d) = Except.error diag →
      CsvReader.new_from_path builder openSource d
        = Except.error (CsvReaderCreationError.CsvError diag))
    ∧ (∀ (openSource : ReaderBuilderConfig → Except CsvDiagnostic TokenizedSource)
        (src : TokenizedSource) (diag : CsvDiagnostic),
      openSource (pathConfig d) = Except.ok src →
      src.header = Except.error diag →
      CsvReader.new_from_path builder openSource d
        = Except.error (CsvReaderCreationError.CsvError diag))
    ∧ (∀ (openSource : ReaderBuilderConfig → Except CsvDiagnostic TokenizedSource)
        (src : TokenizedSource) (hdr : StringRecord) (e : E),
      openSource (pathConfig d) = Except.ok src →
      src.header = Except.ok hdr →
      builder hdr = Except.error e →
      CsvReader.new_from_path builder openSource d
        = Except.error (CsvReaderCreationError.HeaderIndexerBuilderError e))
    ∧ ∀ (a : CsvDiagnostic) (b : E),
      (CsvReaderCreationError.CsvError a : CsvReaderCreationError E)
        ≠ CsvReaderCreationError.HeaderIndexerBuilderError b := by
  refine ⟨?_, ?_, ?_, ?_, ?_, ?_⟩
  · intro tokenize diag hh
    simp [CsvReader.new_from_reader, hh]
  · intro tokenize hdr e hh hb
    simp [CsvReader.new_from_reader, hh, hb]
  · intro openSource diag ho
    simp [CsvReader.new_from_path, ho]
  · intro openSource src diag ho hh
    simp [CsvReader.new_from_path, ho, hh]
  · intro openSource src hdr e ho hh hb
    simp [CsvReader.new_from_path, ho, hh, hb]
  · intro a b h
    exact CsvReaderCreationError.noConfusion h

/-- Witness for C5 at concrete inputs: each creation failure mode
exercised once, plus the distinctness of the two error kinds. -/
theorem creation_errors_distinct_and_faithful_witness :
    (CsvReader.new_from_reader demoBuilder demoTokenizeFail 44
      = Except.error (CsvReaderCreationError.CsvError ("boom")))
    ∧ (CsvReader.new_from_reader demoFailBuilder demoTokenize 44
      = Except.error (CsvReaderCreationError.HeaderIndexerBuilderError ()))
    ∧ (CsvReader.new_from_path demoBuilder demoOpenFail 44
      = Except.error (CsvReaderCreationError.CsvError ("no such file")))
    ∧ (CsvReader.new_from_path demoBuilder demoOpenHeaderFail 44
      = Except.error (CsvReaderCreationError.CsvError ("boom")))
    ∧ (CsvReader.new_from_path demoFailBuilder demoOpen 44
      = Except.error (CsvReaderCreationError.HeaderIndexerBuilderError ()))
    ∧ (CsvReaderCreationError.CsvError ("x") : CsvReaderCreationError Unit)
        ≠ CsvReaderCreationError.HeaderIndexerBuilderError () := by
  have h1 := creation_errors_distinct_and_faithful demoBuilder 44
  have h2 := creation_errors_distinct_and_faithful demoFailBuilder 44
  exact ⟨h1.1 demoTokenizeFail ("boom") rfl,
    h2.2.1 demoTokenize ⟨["A"]⟩ () rfl rfl,
    h1.2.2.1 demoOpenFail ("no such file") rfl,
    h1.2.2.2.1 demoOpenHeaderFail (demoTokenizeFail (pathConfig 44)) ("boom") rfl rfl,
    h2.2.2.2.2.1 demoOpen (demoTokenize (pathConfig 44)) ⟨["A"]⟩ () rfl rfl rfl,
    h1.2.2.2.2.2 ("x") ()⟩

/-- C7: on the header `X,Z, Y` and the five data rows of the reference
scenario, with the example header indexer (exactly one `X`, one `Y`) and
the example parser (`X` as float, `Y` as integer), the stream yields in
order: success with x = 10.2 and y = 11, a decode error (the `Y` field
`12.9` is not an integer), a decode error (the empty `X` field fails the
float parse), success with x = 0 and y = 9, success with x = 1 and
y = 2, then stable exhaustion.  `mkRat 51 5` is the rational 10.2. -/
theorem end_to_end_scenario :
    testRun =
      [some (Except.ok { x := mkRat 51 5, y := 11 }),
       some (Except.error (CsvRowReaderError.RowParserError ParserError.ParseIntError)),
       some (Except.error (CsvRowReaderError.RowParserError ParserError.ParseFloatError)),
       some (Except.ok { x := 0, y := 9 }),
       some (Except.ok { x := 1, y := 2 }),
       none, none]
    ∧ mkRat 51 5 = (10.2 : Rat) := by
  constructor
  · decide
  · rw [Rat.mkRat_eq_div]
    norm_num

/-- C8: the two construction entry points configure the tokenizer
identically except for the comment marker: the path-based entry point
sets the hash marker (byte 35) so comment lines are skipped, the
reader-based one sets none; both set header mode on, the same truncated
delimiter byte, and whole-field trimming.  On a concrete input with a
hash-led line, the path configuration skips it and the reader
configuration keeps it. -/
theorem entry_points_diverge_only_in_comment_config (d : Nat) :
    (pathConfig d).comment = some 35
    ∧ (readerConfig d).comment = none
    ∧ (pathConfig d).has_headers = true
    ∧ (readerConfig d).has_headers = true
    ∧ (pathConfig d).delimiter = (readerConfig d).delimiter
    ∧ (pathConfig d).trim = Trim.all
    ∧ (readerConfig d).trim = Trim.all
    ∧ (tokenizeCsv (pathConfig 44) ("A,B\n#x,y\n1,2")).rows
        = [Except.ok ⟨["1", "2"]⟩]
    ∧ (tokenizeCsv (readerConfig 44) ("A,B\n#x,y\n1,2")).rows
        = [Except.ok ⟨["#x", "y"]⟩, Except.ok ⟨["1", "2"]⟩] :=
  ⟨rfl, rfl, rfl, rfl, rfl, rfl, rfl, by decide, by decide⟩

/-- C9 counterexample: a second row-decoding stream can be attached to
the same `CsvReader` instance after the first stream is dropped — with
two data rows, attaching a stream, pulling once, dropping it, and
attaching a second stream yields the second row, refuting "at most one
stream can be obtained over the instance's entire lifetime". -/
theorem second_stream_attachable_counterexample :
    (CsvRowReader.next echoParse
      (CsvReader.withParser
        (CsvRowReader.release
          (CsvRowReader.pulls echoParse 1 (CsvReader.withParser demoSource ())).2
          demoSource)
        ())).1
      = some (Except.ok ⟨["2"]⟩) := by decide

/-- C9 as amended: at most one stream is active at a time (the exclusive
borrow), and a stream attached after an earlier one is dropped continues
from the tokenizer's current position — it sees exactly the rows not yet
consumed and the same header mapping, never re-reading the header and
never re-observing a consumed row. -/
theorem reattach_continues_without_restart {H P Q R E : Type}
    (parse_row : P → H → StringRecord → Except E R × P)
    (rdr : CsvReader H) (p : P) (q : Q) (n : Nat) :
    (CsvReader.withParser
        (CsvRowReader.release
          (CsvRowReader.pulls parse_row n (CsvReader.withParser rdr p)).2 rdr)
        q).row_reader
      = rdr.rows.drop n
    ∧ (CsvReader.withParser
        (CsvRowReader.release
          (CsvRowReader.pulls parse_row n (CsvReader.withParser rdr p)).2 rdr)
        q).header_indexer
      = rdr.header_indexer := by
  constructor
  · show (CsvRowReader.pulls parse_row n (CsvReader.withParser rdr p)).2.row_reader = _
    rw [pulls_snd_row_reader]
    rfl
  · rfl

/-- C10: the delimiter character is truncated to its low byte (`char`
cast to `u8`) by both entry points: for any code point of 256 or more
the configured delimiter byte is the code point modulo 256 — a different
character than requested — and construction proceeds without any
rejection of the non-single-byte delimiter. -/
theorem delimiter_truncated_to_low_byte (d : Nat) (hbig : 256 ≤ d) :
    (readerConfig d).delimiter = d % 256
    ∧ (pathConfig d).delimiter = d % 256
    ∧ (readerConfig d).delimiter < 256
    ∧ (readerConfig d).delimiter ≠ d
    ∧ ∀ {H E : Type} (builder : StringRecord → Except E H)
        (tokenize : ReaderBuilderConfig → TokenizedSource)
        (hdr : StringRecord) (hIdx : H),
        (tokenize (readerConfig d)).header = Except.ok hdr →
        builder hdr = Except.ok hIdx →
        CsvReader.new_from_reader builder tokenize d
          = Except.ok { rows := (tokenize (readerConfig d)).rows,
                        header_indexer := hIdx } := by
  have hlt : d % 256 < 256 := Nat.mod_lt d (by norm_num)
  refine ⟨rfl, rfl, hlt, Nat.ne_of_lt (lt_of_lt_of_le hlt hbig), ?_⟩
  intro H E builder tokenize hdr hIdx hh hb
  simp [CsvReader.new_from_reader, hh, hb]

/-- Witness for C10 at the concrete code point 300: both configurations
use byte 44 (the comma), and construction succeeds. -/
theorem delimiter_truncated_to_low_byte_witness :
    (readerConfig 300).delimiter = 44
    ∧ (pathConfig 300).delimiter = 44
    ∧ CsvReader.new_from_reader demoBuilder demoTokenize 300
        = Except.ok { rows := [Except.ok ⟨["1"]⟩, Except.error ("bad")],
                      header_indexer := 1 } := by
  have h := delimiter_truncated_to_low_byte 300 (by decide)
  exact ⟨h.1.trans (by decide), h.2.1.trans (by decide),
    h.2.2.2.2 demoBuilder demoTokenize ⟨["A"]⟩ 1 rfl rfl⟩

end CsvMiriBug
